import Mathlib

/- Verification of the Simionic G1000 BLE client (`examples/simpleble/src/simionic.cpp`):
a shallow embedding of its data model and of the whole `main` control flow, with the
collaborator's nondeterminism (scan results, service trees, thrown exceptions, console
input) made explicit as an environment, and the observable behaviour (radio calls and
console lines) recorded as an event trace. -/

namespace Simionic

set_option maxRecDepth 100000

/-- Bluetooth scan record: identifier, address and connectable flag of a peripheral as
seen by the scan-found callback (`peripheral.identifier()`, `.address()`,
`.is_connectable()`). -/
structure ScanRecord where
  identifier : String
  address : String
  is_connectable : Bool
deriving DecidableEq, Inhabited

/-- GATT characteristic with its UUID and its capability flags (`can_notify()`,
`can_indicate()`). -/
structure Characteristic where
  uuid : String
  can_notify : Bool
  can_indicate : Bool
deriving DecidableEq, Inhabited

/-- GATT service: its UUID and its characteristics, in the order the radio stack
returns them. -/
structure Service where
  uuid : String
  characteristics : List Characteristic
deriving DecidableEq, Inhabited

/-- String identifying the Simionic G1000 units during device scanning. -/
def SIMIONIC_G1000_IDENTIFIER : String := "SHB1000"

/-- Simionic-specific UUID of the Indication characteristic. -/
def BLE_CHARACTERISTIC_UUID : String := "f62a9f56-f29e-48a8-a317-47ee37a58999"

/-- Lower-case one character, as C `std::tolower` does for ASCII in the default
locale. -/
def toLowerChar (c : Char) : Char :=
  if 'A' ≤ c ∧ c ≤ 'Z' then Char.ofNat (c.toNat + 32) else c

/-- Helper `to_lower` from `simionic.cpp`: lower-case every character of the string
(`std::transform` with `std::tolower`). -/
def to_lower (s : String) : String := String.mk (s.data.map toLowerChar)

/-- The lower-cased target characteristic UUID, computed once at the top of `main`. -/
def desired_characteristic_uuid : String := to_lower BLE_CHARACTERISTIC_UUID

/-- One upper-case hexadecimal digit, as `std::hex << std::uppercase` prints it. -/
def hexDigit (n : Nat) : Char :=
  if n < 10 then Char.ofNat (48 + n) else Char.ofNat (55 + n)

/-- Two-digit upper-case hexadecimal rendering of one byte value, as
`std::setw(2) << std::setfill('0')` prints a value in 0..255. -/
def byteHex (b : Nat) : String := String.mk [hexDigit (b / 16), hexDigit (b % 16)]

/-- Recognizer for upper-case hexadecimal digit characters. -/
def isUpperHexDigit (c : Char) : Bool :=
  (decide ('0' ≤ c) && decide (c ≤ '9')) || (decide ('A' ≤ c) && decide (c ≤ 'F'))

/-- Function `print_hex_bytes` from `simionic.cpp`: the console line written for one
received payload; the header with the byte count first, then each byte as two
upper-case hex digits followed by one space. -/
def print_hex_bytes (data : List (Fin 256)) : String :=
  data.foldl (fun acc b => acc ++ byteHex b.val ++ " ")
    ("Indication (" ++ toString data.length ++ " bytes): ")

/-- Body of the spec's Byte Renderer output: one two-digit upper-case hex octet plus a
single space per byte, in payload order. -/
def hexBody : List (Fin 256) → String
  | [] => ""
  | b :: rest => byteHex b.val ++ " " ++ hexBody rest

/-- Modelled from the spec: the Byte Renderer contract
`"Indication (<N> bytes): " + <N two-digit uppercase hex octets, each followed by a
single space>`; used to compare the source renderer against the spec's words. -/
def render_spec (data : List (Fin 256)) : String :=
  "Indication (" ++ toString data.length ++ " bytes): " ++ hexBody data

/-- Observable events of one run, in program order: calls into the radio collaborator
and the console lines `main` writes. -/
inductive Event where
  | connectCall
  | disconnectCall
  | indicateCall (serviceUuid charUuid : String)
  | notifyCall (serviceUuid charUuid : String)
  | unsubscribeCall (serviceUuid charUuid : String)
  | errNoAdapter
  | printScanStarted
  | printScanStopped
  | printFound (identifier address : String)
  | errNoConnectable
  | printMenuHeader
  | printMenuRow (index : Nat) (identifier address : String)
  | errInvalidSelection
  | printConnecting (identifier address : String)
  | errConnectionFailed
  | errCharNotFound
  | printServiceLine (uuid : String)
  | printCharLine (uuid : String) (n i : Bool)
  | printUsingNotify
  | errNoCapability
  | errSubscribeFailed
  | printSubscriptionActive (usedIndicate : Bool)
  | warnUnsubscribeFailed
  | printDisconnected
deriving DecidableEq

/-- Scan-found callback body from `simionic.cpp`: push the peripheral onto the vector
if and only if it reports itself connectable. -/
def onScanFound (peripherals : List ScanRecord) (p : ScanRecord) : List ScanRecord :=
  if p.is_connectable then peripherals ++ [p] else peripherals

/-- Device catalog (the `peripherals` vector) after a sequence of scan-found callback
invocations, starting from the empty vector. -/
def scanCatalog (events : List ScanRecord) : List ScanRecord :=
  events.foldl onScanFound []

/-- Environment of one run: everything the radio collaborator and the console decide.
`adapterPresent` models `Utils::getAdapter` succeeding; `foundEvents` is the sequence
of scan-found callback invocations; `userInput` is the operator's device selection
(`none` models non-numeric input); `connectThrows`, `indicateThrows`, `notifyThrows`
and `unsubscribeThrows` say whether the corresponding collaborator call throws;
`services` is the service tree returned by `peripheral.services()` during resolution
and `services2` the tree returned by the second `peripheral.services()` call during
the subscribe-time re-check (the live tree may have changed in between). -/
structure Env where
  adapterPresent : Bool
  foundEvents : List ScanRecord
  userInput : Option Nat
  connectThrows : Bool
  services : List Service
  services2 : List Service
  indicateThrows : Bool
  notifyThrows : Bool
  unsubscribeThrows : Bool

/-- Modelled from the spec: `Utils::getUserInputInt` (from `utils.hpp`, which is not
among this repository's sources) prompts for an integer in `[0, max]` inclusive and
rejects out-of-range or non-numeric input; `none` models non-numeric input. -/
def getUserInputInt (input : Option Nat) (max : Nat) : Option Nat :=
  match input with
  | none => none
  | some k => if k ≤ max then some k else none

/-- Inner resolver loop: the first characteristic of one service whose lower-cased
UUID equals the (already lower-cased) target, paired with the owning service's UUID. -/
def findInService (serviceUuid : String) (chars : List Characteristic)
    (desired : String) : Option (String × String) :=
  match chars with
  | [] => none
  | c :: rest =>
    if to_lower c.uuid = desired then some (serviceUuid, c.uuid)
    else findInService serviceUuid rest desired

/-- Resolver loops of `simionic.cpp`: walk services in returned order, characteristics
in returned order, and stop at the first characteristic whose lower-cased UUID equals
the target, recording the owning service UUID and the characteristic UUID. -/
def findCharacteristic (services : List Service) (desired : String) :
    Option (String × String) :=
  match services with
  | [] => none
  | s :: rest =>
    match findInService s.uuid s.characteristics desired with
    | some r => some r
    | none => findCharacteristic rest desired

/-- Console listing printed on the characteristic-not-found path: every service UUID
and, indented, every characteristic UUID with its N/I capability letters. -/
def listingEvents (services : List Service) : List Event :=
  services.flatMap (fun s =>
    Event.printServiceLine s.uuid ::
      s.characteristics.map (fun c => Event.printCharLine c.uuid c.can_notify c.can_indicate))

/-- Outcome of the subscribe-time re-check loops: they ran to completion (with the
final `used_indicate` flag and the emitted events), an indicate/notify call threw, or
the no-capability branch disconnected and returned failure from inside the loop. -/
inductive SubResult where
  | completed (usedIndicate : Bool) (events : List Event)
  | thrown (events : List Event)
  | noCapExit (events : List Event)
deriving DecidableEq

/-- Events emitted by a re-check outcome. -/
def SubResult.events : SubResult → List Event
  | .completed _ evs => evs
  | .thrown evs => evs
  | .noCapExit evs => evs

/-- Whether the re-check outcome is the no-capability early exit. -/
def SubResult.isNoCap : SubResult → Bool
  | .noCapExit _ => true
  | _ => false

/-- Inner subscribe-time loop over one service's characteristics: at the first
characteristic whose UUID equals the resolved one, subscribe via indicate if
supported, else via notify if supported, else disconnect and exit with failure; then
break out of the characteristics loop. `it` and `nt` say whether the indicate/notify
call throws; `used` is the incoming `used_indicate` flag. -/
def subscribeChars (it nt : Bool) (su cu : String) (used : Bool) :
    List Characteristic → SubResult
  | [] => .completed used []
  | c :: rest =>
    if c.uuid = cu then
      if c.can_indicate then
        if it then .thrown [Event.indicateCall su cu]
        else .completed true [Event.indicateCall su cu]
      else if c.can_notify then
        if nt then .thrown [Event.printUsingNotify, Event.notifyCall su cu]
        else .completed used [Event.printUsingNotify, Event.notifyCall su cu]
      else .noCapExit [Event.errNoCapability, Event.disconnectCall]
    else subscribeChars it nt su cu used rest

/-- Outer subscribe-time loop over the re-read service tree: the inner loop runs for
every service whose UUID equals the resolved one (the outer loop has no break, so
later duplicate services are still visited after a successful subscribe). -/
def subscribeServices (it nt : Bool) (su cu : String) (used : Bool) :
    List Service → SubResult
  | [] => .completed used []
  | s :: rest =>
    if s.uuid = su then
      match subscribeChars it nt su cu used s.characteristics with
      | .completed used2 evs =>
        match subscribeServices it nt su cu used2 rest with
        | .completed used3 evs2 => .completed used3 (evs ++ evs2)
        | .thrown evs2 => .thrown (evs ++ evs2)
        | .noCapExit evs2 => .noCapExit (evs ++ evs2)
      | r => r
    else subscribeServices it nt su cu used rest

/-- C `EXIT_SUCCESS`. -/
def EXIT_SUCCESS : Nat := 0

/-- C `EXIT_FAILURE`. -/
def EXIT_FAILURE : Nat := 1

/-- Console line and collaborator call made when connecting to the chosen
peripheral. -/
def connectEvents (p : ScanRecord) : List Event :=
  [Event.printConnecting p.identifier p.address, Event.connectCall]

/-- The run from the subscribe-time re-check onward, given the resolved service and
characteristic UUIDs: on a thrown subscribe, report and disconnect with failure; on
the no-capability exit, the loop already disconnected; otherwise announce the
subscription, wait for Enter, unsubscribe (warning on error), disconnect and exit
with success. -/
def mainAfterResolve (env : Env) (su cu : String) : Nat × List Event :=
  match subscribeServices env.indicateThrows env.notifyThrows su cu false env.services2 with
  | .thrown evs => (EXIT_FAILURE, evs ++ [Event.errSubscribeFailed, Event.disconnectCall])
  | .noCapExit evs => (EXIT_FAILURE, evs)
  | .completed used evs =>
    (EXIT_SUCCESS,
      evs ++ [Event.printSubscriptionActive used, Event.unsubscribeCall su cu]
        ++ (if env.unsubscribeThrows then [Event.warnUnsubscribeFailed] else [])
        ++ [Event.disconnectCall, Event.printDisconnected])

/-- The run from the connect attempt onward for the chosen peripheral: a thrown
connect terminates with failure and no cleanup; a failed resolution lists the tree,
disconnects and terminates with failure; otherwise continue into the re-check. -/
def mainFromConnect (env : Env) (p : ScanRecord) : Nat × List Event :=
  if env.connectThrows then (EXIT_FAILURE, connectEvents p ++ [Event.errConnectionFailed])
  else
    match findCharacteristic env.services desired_characteristic_uuid with
    | none =>
      (EXIT_FAILURE,
        connectEvents p ++ [Event.errCharNotFound] ++ listingEvents env.services
          ++ [Event.disconnectCall])
    | some (su, cu) =>
      ((mainAfterResolve env su cu).1, connectEvents p ++ (mainAfterResolve env su cu).2)

/-- Menu rows printed after the scan: one indexed `identifier [address]` row for each
catalog entry whose identifier equals the target identifier, at its index in the full
catalog. -/
def menuEvents (ps : List ScanRecord) : List Event :=
  (ps.enum.filter (fun ip => ip.2.identifier == SIMIONIC_G1000_IDENTIFIER)).map
    (fun ip => Event.printMenuRow ip.1 ip.2.identifier ip.2.address)

/-- The run from the selection prompt onward: the prompt's bound is the length of the
full connectable catalog minus one; an invalid selection terminates with failure,
otherwise the run continues with the catalog entry at the selected index. -/
def mainFromSelection (env : Env) (ps : List ScanRecord) : Nat × List Event :=
  match getUserInputInt env.userInput (ps.length - 1) with
  | none => (EXIT_FAILURE, [Event.errInvalidSelection])
  | some sel => mainFromConnect env (ps.getD sel default)

/-- Console lines produced during the scan window: scan start, one found line per
scan-found callback invocation (connectable or not), scan stop. -/
def preEvents (env : Env) : List Event :=
  [Event.printScanStarted]
    ++ env.foundEvents.map (fun r => Event.printFound r.identifier r.address)
    ++ [Event.printScanStopped]

/-- The whole `main` of `simionic.cpp` as a function of the environment, returning the
process exit code and the trace of observable events. -/
def main (env : Env) : Nat × List Event :=
  if env.adapterPresent then
    if (scanCatalog env.foundEvents).isEmpty then
      (EXIT_FAILURE, preEvents env ++ [Event.errNoConnectable])
    else
      ((mainFromSelection env (scanCatalog env.foundEvents)).1,
        preEvents env ++ [Event.printMenuHeader] ++ menuEvents (scanCatalog env.foundEvents)
          ++ (mainFromSelection env (scanCatalog env.foundEvents)).2)
  else (EXIT_FAILURE, [Event.errNoAdapter])

/-! ### Event classifiers and trace lemmas -/

/-- Console-only events emitted before the connect attempt. -/
def isPrintEvent : Event → Bool
  | .printScanStarted | .printScanStopped | .printFound _ _ | .printMenuHeader
  | .printMenuRow _ _ _ => true
  | _ => false

/-- Events of the characteristic listing printed on the not-found path. -/
def isListingEvent : Event → Bool
  | .printServiceLine _ | .printCharLine _ _ _ => true
  | _ => false

/-- Events the subscribe-time re-check loops can emit. -/
def isSubEvent : Event → Bool
  | .indicateCall _ _ | .notifyCall _ _ | .printUsingNotify | .errNoCapability
  | .disconnectCall => true
  | _ => false

/-- Indicate-call events, with any arguments. -/
def isIndicateCallEvent : Event → Bool
  | .indicateCall _ _ => true
  | _ => false

/-- Notify-call events, with any arguments. -/
def isNotifyCallEvent : Event → Bool
  | .notifyCall _ _ => true
  | _ => false

lemma not_mem_of_all {l : List Event} {f : Event → Bool}
    (h : ∀ e ∈ l, f e = true) {a : Event} (ha : f a = false) : a ∉ l := by
  intro hm
  rw [h a hm] at ha
  cases ha

lemma count_eq_zero_of_all {l : List Event} {f : Event → Bool}
    (h : ∀ e ∈ l, f e = true) {a : Event} (ha : f a = false) : l.count a = 0 :=
  List.count_eq_zero.mpr (not_mem_of_all h ha)

lemma preEvents_print (env : Env) : ∀ e ∈ preEvents env, isPrintEvent e = true := by
  intro e he
  simp only [preEvents, List.mem_append, List.mem_singleton, List.mem_map] at he
  rcases he with (rfl | ⟨r, _, rfl⟩) | rfl <;> rfl

lemma menuEvents_print (ps : List ScanRecord) : ∀ e ∈ menuEvents ps, isPrintEvent e = true := by
  intro e he
  simp only [menuEvents, List.mem_map] at he
  rcases he with ⟨ip, _, rfl⟩
  rfl

lemma listingEvents_shape (ss : List Service) :
    ∀ e ∈ listingEvents ss, isListingEvent e = true := by
  intro e he
  simp only [listingEvents, List.mem_flatMap] at he
  rcases he with ⟨s, _, hs⟩
  rcases List.mem_cons.mp hs with rfl | h
  · rfl
  · rcases List.mem_map.mp h with ⟨c, _, rfl⟩
    rfl

lemma subscribeChars_events_shape (it nt : Bool) (su cu : String) (used : Bool)
    (chars : List Characteristic) :
    ∀ e ∈ (subscribeChars it nt su cu used chars).events, isSubEvent e = true := by
  induction chars with
  | nil => intro e he; simp [subscribeChars, SubResult.events] at he
  | cons c rest ih =>
    intro e he
    simp only [subscribeChars] at he
    split at he
    · split at he
      · split at he <;>
          · simp only [SubResult.events, List.mem_singleton] at he
            subst he
            rfl
      · split at he
        · split at he <;>
            · simp only [SubResult.events, List.mem_cons, List.mem_singleton,
                List.not_mem_nil, or_false] at he
              rcases he with rfl | rfl <;> rfl
        · simp only [SubResult.events, List.mem_cons, List.mem_singleton,
            List.not_mem_nil, or_false] at he
          rcases he with rfl | rfl <;> rfl
    · exact ih e he

lemma subscribeServices_events_shape (it nt : Bool) (su cu : String) (used : Bool)
    (ss : List Service) :
    ∀ e ∈ (subscribeServices it nt su cu used ss).events, isSubEvent e = true := by
  induction ss generalizing used with
  | nil => intro e he; simp [subscribeServices, SubResult.events] at he
  | cons s rest ih =>
    intro e he
    simp only [subscribeServices] at he
    split at he
    · have hinner := subscribeChars_events_shape it nt su cu used s.characteristics
      cases hc : subscribeChars it nt su cu used s.characteristics with
      | completed used2 evs =>
        rw [hc] at hinner
        simp only [hc] at he
        simp only [SubResult.events] at hinner
        have houter := ih used2
        cases hr : subscribeServices it nt su cu used2 rest with
        | completed used3 evs2 =>
          rw [hr] at houter
          simp only [hr, SubResult.events, List.mem_append] at he
          simp only [SubResult.events] at houter
          rcases he with h | h
          · exact hinner e h
          · exact houter e h
        | thrown evs2 =>
          rw [hr] at houter
          simp only [hr, SubResult.events, List.mem_append] at he
          simp only [SubResult.events] at houter
          rcases he with h | h
          · exact hinner e h
          · exact houter e h
        | noCapExit evs2 =>
          rw [hr] at houter
          simp only [hr, SubResult.events, List.mem_append] at he
          simp only [SubResult.events] at houter
          rcases he with h | h
          · exact hinner e h
          · exact houter e h
      | thrown evs =>
        rw [hc] at hinner
        simp only [hc] at he
        exact hinner e he
      | noCapExit evs =>
        rw [hc] at hinner
        simp only [hc] at he
        exact hinner e he
    · exact ih used e he

lemma subscribeChars_disc (it nt : Bool) (su cu : String) (used : Bool)
    (chars : List Characteristic) :
    (subscribeChars it nt su cu used chars).events.count Event.disconnectCall =
      (if (subscribeChars it nt su cu used chars).isNoCap then 1 else 0) := by
  induction chars with
  | nil => simp [subscribeChars, SubResult.events, SubResult.isNoCap]
  | cons c rest ih =>
    simp only [subscribeChars]
    split
    · split
      · split <;> simp [SubResult.events, SubResult.isNoCap]
      · split
        · split <;> simp [SubResult.events, SubResult.isNoCap]
        · simp [SubResult.events, SubResult.isNoCap]
    · exact ih

lemma subscribeServices_disc (it nt : Bool) (su cu : String) (used : Bool)
    (ss : List Service) :
    (subscribeServices it nt su cu used ss).events.count Event.disconnectCall =
      (if (subscribeServices it nt su cu used ss).isNoCap then 1 else 0) := by
  induction ss generalizing used with
  | nil => simp [subscribeServices, SubResult.events, SubResult.isNoCap]
  | cons s rest ih =>
    simp only [subscribeServices]
    split
    · have hinner := subscribeChars_disc it nt su cu used s.characteristics
      cases hc : subscribeChars it nt su cu used s.characteristics with
      | completed used2 evs =>
        rw [hc] at hinner
        simp only [SubResult.events, SubResult.isNoCap, if_false] at hinner
        have houter := ih used2
        cases hr : subscribeServices it nt su cu used2 rest with
        | completed used3 evs2 =>
          rw [hr] at houter
          simp only [SubResult.events, SubResult.isNoCap] at houter
          simp at houter
          simp [hc, hr, SubResult.events, SubResult.isNoCap, List.count_append,
            hinner, houter]
        | thrown evs2 =>
          rw [hr] at houter
          simp only [SubResult.events, SubResult.isNoCap] at houter
          simp at houter
          simp [hc, hr, SubResult.events, SubResult.isNoCap, List.count_append,
            hinner, houter]
        | noCapExit evs2 =>
          rw [hr] at houter
          simp only [SubResult.events, SubResult.isNoCap] at houter
          simp at houter
          simp [hc, hr, SubResult.events, SubResult.isNoCap, List.count_append,
            hinner, houter]
      | thrown evs =>
        rw [hc] at hinner
        simpa [hc, SubResult.events, SubResult.isNoCap] using hinner
      | noCapExit evs =>
        rw [hc] at hinner
        simpa [hc, SubResult.events, SubResult.isNoCap] using hinner
    · exact ih used

lemma subscribeChars_miss (it nt : Bool) (su cu : String) (used : Bool)
    (chars : List Characteristic) (h : ∀ c ∈ chars, c.uuid ≠ cu) :
    subscribeChars it nt su cu used chars = .completed used [] := by
  induction chars with
  | nil => rfl
  | cons c rest ih =>
    have hc : c.uuid ≠ cu := h c (List.mem_cons_self c rest)
    simp only [subscribeChars, if_neg hc]
    exact ih fun x hx => h x (List.mem_cons_of_mem c hx)

lemma subscribeServices_miss (it nt : Bool) (su cu : String) (used : Bool)
    (ss : List Service)
    (h : ∀ s ∈ ss, s.uuid = su → ∀ c ∈ s.characteristics, c.uuid ≠ cu) :
    subscribeServices it nt su cu used ss = .completed used [] := by
  induction ss generalizing used with
  | nil => rfl
  | cons s rest ih =>
    simp only [subscribeServices]
    split
    · rename_i hs
      simp only [subscribeChars_miss it nt su cu used s.characteristics
          (h s (List.mem_cons_self s rest) hs),
        ih used fun x hx => h x (List.mem_cons_of_mem s hx), List.nil_append]
    · exact ih used fun x hx => h x (List.mem_cons_of_mem s hx)

/-! ### Reduction lemmas for the embedded main -/

lemma main_reach (env : Env) (h1 : env.adapterPresent = true)
    (h2 : (scanCatalog env.foundEvents).isEmpty = false) :
    main env =
      ((mainFromSelection env (scanCatalog env.foundEvents)).1,
        preEvents env ++ [Event.printMenuHeader] ++ menuEvents (scanCatalog env.foundEvents)
          ++ (mainFromSelection env (scanCatalog env.foundEvents)).2) := by
  simp [main, h1, h2]

lemma mainFromSelection_some (env : Env) (ps : List ScanRecord) (sel : Nat)
    (h : getUserInputInt env.userInput (ps.length - 1) = some sel) :
    mainFromSelection env ps = mainFromConnect env (ps.getD sel default) := by
  simp [mainFromSelection, h]

lemma mainFromSelection_none (env : Env) (ps : List ScanRecord)
    (h : getUserInputInt env.userInput (ps.length - 1) = none) :
    mainFromSelection env ps = (EXIT_FAILURE, [Event.errInvalidSelection]) := by
  simp [mainFromSelection, h]

lemma mainFromConnect_notfound (env : Env) (p : ScanRecord)
    (h4 : env.connectThrows = false)
    (h5 : findCharacteristic env.services desired_characteristic_uuid = none) :
    mainFromConnect env p =
      (EXIT_FAILURE,
        connectEvents p ++ [Event.errCharNotFound] ++ listingEvents env.services
          ++ [Event.disconnectCall]) := by
  simp [mainFromConnect, h4, h5]

lemma mainFromConnect_resolved (env : Env) (p : ScanRecord) (su cu : String)
    (h4 : env.connectThrows = false)
    (h5 : findCharacteristic env.services desired_characteristic_uuid = some (su, cu)) :
    mainFromConnect env p =
      ((mainAfterResolve env su cu).1,
        connectEvents p ++ (mainAfterResolve env su cu).2) := by
  simp [mainFromConnect, h4, h5]

lemma mainAfterResolve_completed (env : Env) (su cu : String) (used : Bool)
    (evs : List Event)
    (h : subscribeServices env.indicateThrows env.notifyThrows su cu false env.services2 =
      .completed used evs) :
    mainAfterResolve env su cu =
      (EXIT_SUCCESS,
        evs ++ [Event.printSubscriptionActive used, Event.unsubscribeCall su cu]
          ++ (if env.unsubscribeThrows then [Event.warnUnsubscribeFailed] else [])
          ++ [Event.disconnectCall, Event.printDisconnected]) := by
  simp [mainAfterResolve, h]

lemma mainAfterResolve_thrown (env : Env) (su cu : String) (evs : List Event)
    (h : subscribeServices env.indicateThrows env.notifyThrows su cu false env.services2 =
      .thrown evs) :
    mainAfterResolve env su cu =
      (EXIT_FAILURE, evs ++ [Event.errSubscribeFailed, Event.disconnectCall]) := by
  simp [mainAfterResolve, h]

lemma mainAfterResolve_noCap (env : Env) (su cu : String) (evs : List Event)
    (h : subscribeServices env.indicateThrows env.notifyThrows su cu false env.services2 =
      .noCapExit evs) :
    mainAfterResolve env su cu = (EXIT_FAILURE, evs) := by
  simp [mainAfterResolve, h]

lemma mainFromConnect_trace (env : Env) (p : ScanRecord) :
    ∃ rest, (mainFromConnect env p).2 = connectEvents p ++ rest := by
  cases ht : env.connectThrows with
  | true => exact ⟨[Event.errConnectionFailed], by simp [mainFromConnect, ht]⟩
  | false =>
    cases h5 : findCharacteristic env.services desired_characteristic_uuid with
    | none =>
      exact ⟨[Event.errCharNotFound] ++ listingEvents env.services ++ [Event.disconnectCall],
        by simp [mainFromConnect, ht, h5, List.append_assoc]⟩
    | some r =>
      obtain ⟨su, cu⟩ := r
      exact ⟨(mainAfterResolve env su cu).2, by simp [mainFromConnect, ht, h5]⟩

lemma errInvalid_not_in_afterResolve (env : Env) (su cu : String) :
    Event.errInvalidSelection ∉ (mainAfterResolve env su cu).2 := by
  have hshape := subscribeServices_events_shape env.indicateThrows env.notifyThrows
    su cu false env.services2
  cases hs : subscribeServices env.indicateThrows env.notifyThrows su cu false
      env.services2 with
  | completed used evs =>
    rw [hs] at hshape
    simp only [SubResult.events] at hshape
    rw [mainAfterResolve_completed env su cu used evs hs]
    intro hm
    cases hu : env.unsubscribeThrows
    all_goals rw [hu] at hm
    all_goals simp only [List.mem_append, if_true, if_false, List.mem_cons,
      List.mem_singleton, List.not_mem_nil, or_false] at hm
    · rcases hm with ((h | (h | h)) | h) | (h | h)
      all_goals first
        | (exact absurd (hshape _ h) (by decide))
        | (simp at h)
    · rcases hm with ((h | (h | h)) | h) | (h | h)
      all_goals first
        | (exact absurd (hshape _ h) (by decide))
        | (simp at h)
  | thrown evs =>
    rw [hs] at hshape
    simp only [SubResult.events] at hshape
    rw [mainAfterResolve_thrown env su cu evs hs]
    intro hm
    simp only [List.mem_append, List.mem_cons, List.mem_singleton, List.not_mem_nil,
      or_false] at hm
    rcases hm with h | (h | h)
    · exact absurd (hshape _ h) (by decide)
    · simp at h
    · simp at h
  | noCapExit evs =>
    rw [hs] at hshape
    simp only [SubResult.events] at hshape
    rw [mainAfterResolve_noCap env su cu evs hs]
    intro hm
    exact absurd (hshape _ hm) (by decide)

lemma errInvalid_not_in_fromConnect (env : Env) (p : ScanRecord) :
    Event.errInvalidSelection ∉ (mainFromConnect env p).2 := by
  cases ht : env.connectThrows with
  | true =>
    rw [mainFromConnect]
    rw [ht]
    simp [connectEvents]
  | false =>
    cases h5 : findCharacteristic env.services desired_characteristic_uuid with
    | none =>
      rw [mainFromConnect_notfound env p ht h5]
      intro hm
      simp only [List.mem_append, List.mem_singleton] at hm
      rcases hm with ((h | h) | h) | h
      · simp [connectEvents] at h
      · exact absurd h (by decide)
      · exact absurd (listingEvents_shape env.services _ h) (by decide)
      · exact absurd h (by decide)
    | some r =>
      obtain ⟨su, cu⟩ := r
      rw [mainFromConnect_resolved env p su cu ht h5]
      intro hm
      simp only [List.mem_append] at hm
      rcases hm with h | h
      · simp [connectEvents] at h
      · exact absurd h (errInvalid_not_in_afterResolve env su cu)

/-! ### Resolver, catalog and renderer characterizations -/

lemma find?_append_cases {α : Type} (p : α → Bool) (l1 l2 : List α) :
    (l1 ++ l2).find? p =
      match l1.find? p with
      | some a => some a
      | none => l2.find? p := by
  induction l1 with
  | nil => simp
  | cons a l ih =>
    cases h : p a with
    | true => simp [List.find?, h]
    | false => simp [List.find?, h, ih]

lemma findInService_eq (su : String) (chars : List Characteristic) (d : String) :
    findInService su chars d =
      (chars.map (fun c => (su, c.uuid))).find? (fun pr => to_lower pr.2 == d) := by
  induction chars with
  | nil => rfl
  | cons c rest ih =>
    simp only [findInService, List.map_cons, List.find?_cons]
    by_cases h : to_lower c.uuid = d
    · have hb : (to_lower c.uuid == d) = true := by simp [h]
      rw [if_pos h, hb]
    · have hb : (to_lower c.uuid == d) = false := by simp [h]
      rw [if_neg h, hb, ih]

lemma findCharacteristic_eq (ss : List Service) (d : String) :
    findCharacteristic ss d =
      (ss.flatMap (fun s => s.characteristics.map (fun c => (s.uuid, c.uuid)))).find?
        (fun pr => to_lower pr.2 == d) := by
  induction ss with
  | nil => rfl
  | cons s rest ih =>
    rw [findCharacteristic, findInService_eq, List.flatMap_cons, find?_append_cases]
    cases hf : (s.characteristics.map fun c => (s.uuid, c.uuid)).find?
        (fun pr => to_lower pr.2 == d) <;>
      simp [ih]

lemma scanCatalog_fold (events acc : List ScanRecord) :
    events.foldl onScanFound acc = acc ++ events.filter (fun r => r.is_connectable) := by
  induction events generalizing acc with
  | nil => simp
  | cons r rest ih =>
    cases h : r.is_connectable with
    | true =>
      simp [List.foldl, onScanFound, h, ih, List.filter_cons, List.append_assoc]
    | false => simp [List.foldl, onScanFound, h, ih, List.filter_cons]

lemma print_hex_fold (l : List (Fin 256)) (acc : String) :
    l.foldl (fun a b => a ++ byteHex b.val ++ " ") acc = acc ++ hexBody l := by
  induction l generalizing acc with
  | nil => simp [hexBody]
  | cons b rest ih =>
    rw [List.foldl_cons, ih]
    simp [hexBody, String.append_assoc]

/-! ### Claim theorems -/

/-- Record used in the C3 counterexample: connectable, with an empty address. -/
def c3rec : ScanRecord := ⟨"SHB1000", "", true⟩

/-- C3 counterexample: the scan callback neither deduplicates by address nor rejects
empty addresses — after two identical connectable on-found invocations with an empty
address, the catalog holds both copies (two entries with the same, empty, address),
and the second invocation was not a no-op. -/
theorem c3_catalog_dedup_counterexample :
    scanCatalog [c3rec, c3rec] = [c3rec, c3rec] ∧
    (scanCatalog [c3rec, c3rec]).map ScanRecord.address = ["", ""] ∧
    scanCatalog [c3rec] ≠ scanCatalog [c3rec, c3rec] := by
  refine ⟨rfl, rfl, ?_⟩
  decide

/-- C3 (amended): for every sequence of on-found scan callback invocations the device
catalog is exactly the subsequence of connectable records in arrival order — a
non-connectable record is ignored, and every connectable record is appended, with no
deduplication by address and no empty-address rejection. -/
theorem c3_catalog_connectable_filter (events : List ScanRecord) :
    scanCatalog events = events.filter (fun r => r.is_connectable) := by
  rw [scanCatalog, scanCatalog_fold]
  simp

/-- C8: the byte renderer emits exactly the header `Indication (<N> bytes): ` followed
by one two-digit upper-case hexadecimal octet plus a single space per payload byte; it
is a pure function of the bytes, the empty payload renders as
`Indication (0 bytes): `, and `[0x0A, 0xFF]` renders as
`Indication (2 bytes): 0A FF `. -/
theorem c8_byte_renderer :
    (∀ data : List (Fin 256), print_hex_bytes data = render_spec data) ∧
    (∀ b : Fin 256,
      (byteHex b.val).length = 2 ∧ (byteHex b.val).data.all isUpperHexDigit = true) ∧
    print_hex_bytes [] = "Indication (0 bytes): " ∧
    print_hex_bytes [(10 : Fin 256), (255 : Fin 256)] = "Indication (2 bytes): 0A FF " := by
  refine ⟨?_, by decide, by decide, by decide⟩
  intro data
  rw [print_hex_bytes, render_spec, print_hex_fold]

/-- Scan record for the C2 environment: one connectable target device. -/
def c2dev : ScanRecord := ⟨"SHB1000", "AA:BB", true⟩

/-- Service for the C2 environment: holds the target characteristic with the given
capability flags. -/
def c2svc (ci cn : Bool) : Service :=
  ⟨"svc1", [⟨BLE_CHARACTERISTIC_UUID, cn, ci⟩]⟩

/-- Environment for C2: adapter present, one connectable target device selected at
index 0, connect succeeds, the same one-service tree at resolve and re-check time,
and no collaborator call throws; the characteristic's capability flags are the
parameters. -/
def c2env (ci cn : Bool) : Env :=
  ⟨true, [c2dev], some 0, false, [c2svc ci cn], [c2svc ci cn], false, false, false⟩

/-- C2: subscription-mode selection at the subscribe-time re-check is deterministic
and priority-ordered — with `can_indicate` true the session subscribes via indicate
(never notify); with only `can_notify` true it subscribes via notify (never
indicate); with neither it reports no capability, disconnects, terminates with a
failure exit code, and subscribes via neither mode. -/
theorem c2_subscription_mode_priority (ci cn : Bool) :
    (ci = true →
      Event.indicateCall "svc1" BLE_CHARACTERISTIC_UUID ∈ (main (c2env ci cn)).2 ∧
      (main (c2env ci cn)).2.all (fun e => !isNotifyCallEvent e) = true ∧
      (main (c2env ci cn)).1 = EXIT_SUCCESS) ∧
    (ci = false → cn = true →
      Event.notifyCall "svc1" BLE_CHARACTERISTIC_UUID ∈ (main (c2env ci cn)).2 ∧
      (main (c2env ci cn)).2.all (fun e => !isIndicateCallEvent e) = true ∧
      (main (c2env ci cn)).1 = EXIT_SUCCESS) ∧
    (ci = false → cn = false →
      (main (c2env ci cn)).1 = EXIT_FAILURE ∧
      Event.errNoCapability ∈ (main (c2env ci cn)).2 ∧
      Event.disconnectCall ∈ (main (c2env ci cn)).2 ∧
      (main (c2env ci cn)).2.all
        (fun e => !isIndicateCallEvent e && !isNotifyCallEvent e) = true) := by
  cases ci <;> cases cn <;> decide

/-- C2 witness: with both capability flags set, the session subscribes via indicate
and exits with success. -/
theorem c2_subscription_mode_priority_witness :
    Event.indicateCall "svc1" BLE_CHARACTERISTIC_UUID ∈ (main (c2env true true)).2 ∧
    (main (c2env true true)).1 = EXIT_SUCCESS := by
  have h := (c2_subscription_mode_priority true true).1 rfl
  exact ⟨h.1, h.2.2⟩

lemma pre_trace_not_mem (env : Env) {e : Event} (hf : isPrintEvent e = false) :
    e ∉ preEvents env ++ [Event.printMenuHeader]
      ++ menuEvents (scanCatalog env.foundEvents) := by
  intro hm
  rcases List.mem_append.mp hm with h | h
  · rcases List.mem_append.mp h with h | h
    · rw [preEvents_print env e h] at hf
      cases hf
    · simp only [List.mem_singleton] at h
      subst h
      cases hf
  · rw [menuEvents_print _ e h] at hf
    cases hf

lemma pre_trace_count_zero (env : Env) {e : Event} (hf : isPrintEvent e = false) :
    (preEvents env ++ [Event.printMenuHeader]
      ++ menuEvents (scanCatalog env.foundEvents)).count e = 0 :=
  List.count_eq_zero.mpr (pre_trace_not_mem env hf)

/-- Service used by several concrete environments: owns the target characteristic
with indicate capability. -/
def wsvc : Service := ⟨"svc1", [⟨BLE_CHARACTERISTIC_UUID, false, true⟩]⟩

/-- Environment for the C4 counterexample: two connectable devices, only the first
matching the target identifier, operator input 1. -/
def c4env : Env :=
  ⟨true, [⟨"SHB1000", "AA", true⟩, ⟨"OTHER", "BB", true⟩], some 1, false,
    [wsvc], [wsvc], false, false, false⟩

/-- C4 counterexample: with exactly one identifier-filtered candidate (n = 1) the
program neither auto-selects index 0 nor restricts input to [0, n-1]: the input 1 —
outside the claimed acceptable range {0} — is accepted without an invalid-selection
failure, the run connects to the non-matching device `OTHER`, and it exits with
success. -/
theorem c4_selection_counterexample :
    ((scanCatalog c4env.foundEvents).filter
      (fun r => r.identifier == SIMIONIC_G1000_IDENTIFIER)).length = 1 ∧
    (main c4env).1 = EXIT_SUCCESS ∧
    Event.errInvalidSelection ∉ (main c4env).2 ∧
    Event.printConnecting "OTHER" "BB" ∈ (main c4env).2 := by
  refine ⟨by decide, by decide, by decide, by decide⟩

/-- Environment for the C5 counterexample: one connectable device whose identifier
does not match the target, operator input 0. -/
def c5env : Env :=
  ⟨true, [⟨"OTHER", "BB", true⟩], some 0, false, [wsvc], [wsvc], false, false, false⟩

/-- C5 counterexample: the scan yields no device whose identifier equals the target
(the filtered sequence is empty), yet the run does not terminate with a failure: it
connects to the non-matching device and exits with success. -/
theorem c5_empty_filter_counterexample :
    (scanCatalog c5env.foundEvents).filter
      (fun r => r.identifier == SIMIONIC_G1000_IDENTIFIER) = [] ∧
    (main c5env).1 = EXIT_SUCCESS ∧
    Event.connectCall ∈ (main c5env).2 := by
  refine ⟨by decide, by decide, by decide⟩

/-- C5 (amended): the early-termination check is on the full connectable catalog, not
on the identifier-filtered sequence — when the scan yields no connectable device at
all, the run exits with a failure code after the empty-catalog diagnostic and never
attempts a connect; an empty filtered sequence with a non-empty catalog does not
terminate the run. -/
theorem c5_empty_catalog_termination (env : Env)
    (h1 : env.adapterPresent = true)
    (h2 : scanCatalog env.foundEvents = []) :
    (main env).1 = EXIT_FAILURE ∧ Event.errNoConnectable ∈ (main env).2 ∧
      Event.connectCall ∉ (main env).2 := by
  have hE : (scanCatalog env.foundEvents).isEmpty = true := by rw [h2]; rfl
  have hm : main env = (EXIT_FAILURE, preEvents env ++ [Event.errNoConnectable]) := by
    simp [main, h1, hE]
  rw [hm]
  refine ⟨rfl, by simp, ?_⟩
  intro hc
  rcases List.mem_append.mp hc with h | h
  · exact absurd (preEvents_print env _ h) (by decide)
  · simp at h

/-- C5 amended-claim witness: a single non-connectable scan result leaves the catalog
empty; the run ends with a failure exit code and the empty-catalog diagnostic, and no
connect is attempted. -/
theorem c5_empty_catalog_termination_witness :
    (main ⟨true, [⟨"SHB1000", "AA", false⟩], some 0, false, [], [], false, false,
      false⟩).1 = EXIT_FAILURE ∧
    Event.errNoConnectable ∈ (main ⟨true, [⟨"SHB1000", "AA", false⟩], some 0, false,
      [], [], false, false, false⟩).2 ∧
    Event.connectCall ∉ (main ⟨true, [⟨"SHB1000", "AA", false⟩], some 0, false, [],
      [], false, false, false⟩).2 :=
  c5_empty_catalog_termination
    ⟨true, [⟨"SHB1000", "AA", false⟩], some 0, false, [], [], false, false, false⟩
    rfl (by decide)

/-- C10: the selection prompt is bounded by the full connectable catalog — every
index `k` below the total connectable count is accepted (even when the device at `k`
does not match the target identifier and was not shown in the menu), and the run then
connects to the catalog entry at index `k`. -/
theorem c10_full_catalog_selection (env : Env) (k : Nat)
    (h1 : env.adapterPresent = true)
    (hk : k < (scanCatalog env.foundEvents).length)
    (hin : env.userInput = some k) :
    getUserInputInt env.userInput ((scanCatalog env.foundEvents).length - 1) = some k ∧
    Event.printConnecting ((scanCatalog env.foundEvents).getD k default).identifier
        ((scanCatalog env.foundEvents).getD k default).address ∈ (main env).2 ∧
    Event.connectCall ∈ (main env).2 := by
  have hE : (scanCatalog env.foundEvents).isEmpty = false := by
    cases hsc : scanCatalog env.foundEvents with
    | nil => rw [hsc] at hk; simp at hk
    | cons a l => rfl
  have hg : getUserInputInt env.userInput
      ((scanCatalog env.foundEvents).length - 1) = some k := by
    rw [hin, getUserInputInt, if_pos (by omega)]
  obtain ⟨rest, hrest⟩ :=
    mainFromConnect_trace env ((scanCatalog env.foundEvents).getD k default)
  have hm2 : (main env).2 =
      preEvents env ++ [Event.printMenuHeader]
        ++ menuEvents (scanCatalog env.foundEvents)
        ++ (connectEvents ((scanCatalog env.foundEvents).getD k default) ++ rest) := by
    rw [main_reach env h1 hE, mainFromSelection_some env _ k hg, hrest]
  rw [hm2]
  refine ⟨hg, by simp [connectEvents], by simp [connectEvents]⟩

/-- C10 witness: in a two-device catalog where only index 0 matches the target
identifier, index 1 is accepted and the run connects to the device at index 1 of the
full catalog. -/
theorem c10_full_catalog_selection_witness :
    getUserInputInt c4env.userInput ((scanCatalog c4env.foundEvents).length - 1) =
      some 1 ∧
    Event.printConnecting ((scanCatalog c4env.foundEvents).getD 1 default).identifier
      ((scanCatalog c4env.foundEvents).getD 1 default).address ∈ (main c4env).2 :=
  ⟨(c10_full_catalog_selection c4env 1 rfl (by decide) rfl).1,
    (c10_full_catalog_selection c4env 1 rfl (by decide) rfl).2.1⟩

/-- C4 (amended): the selection step never auto-selects — whatever the filtered count,
it prompts over the full connectable catalog and accepts exactly the integers in
[0, totalConnectable - 1]: any such index proceeds to a connect with no
invalid-selection failure, while an out-of-range or non-numeric input terminates with
the invalid-selection diagnostic, a failure exit code, and no connect. -/
theorem c4_selection_full_catalog (env : Env)
    (h1 : env.adapterPresent = true)
    (h2 : (scanCatalog env.foundEvents).isEmpty = false) :
    (∀ k, env.userInput = some k → k < (scanCatalog env.foundEvents).length →
      Event.errInvalidSelection ∉ (main env).2 ∧ Event.connectCall ∈ (main env).2) ∧
    (∀ k, env.userInput = some k → (scanCatalog env.foundEvents).length ≤ k →
      (main env).1 = EXIT_FAILURE ∧ Event.errInvalidSelection ∈ (main env).2 ∧
        Event.connectCall ∉ (main env).2) ∧
    (env.userInput = none →
      (main env).1 = EXIT_FAILURE ∧ Event.errInvalidSelection ∈ (main env).2 ∧
        Event.connectCall ∉ (main env).2) := by
  have hlen : (scanCatalog env.foundEvents).length ≠ 0 := by
    cases hsc : scanCatalog env.foundEvents with
    | nil => rw [hsc] at h2; simp at h2
    | cons a l => simp
  refine ⟨?_, ?_, ?_⟩
  · intro k hin hk
    have hg : getUserInputInt env.userInput
        ((scanCatalog env.foundEvents).length - 1) = some k := by
      rw [hin, getUserInputInt, if_pos (by omega)]
    obtain ⟨rest, hrest⟩ :=
      mainFromConnect_trace env ((scanCatalog env.foundEvents).getD k default)
    have hm2 : (main env).2 =
        preEvents env ++ [Event.printMenuHeader]
          ++ menuEvents (scanCatalog env.foundEvents)
          ++ (connectEvents ((scanCatalog env.foundEvents).getD k default) ++ rest) := by
      rw [main_reach env h1 h2, mainFromSelection_some env _ k hg, hrest]
    rw [hm2]
    constructor
    · intro hmem
      rcases List.mem_append.mp hmem with h | h
      · exact absurd h (pre_trace_not_mem env rfl)
      · rw [← hrest] at h
        exact absurd h (errInvalid_not_in_fromConnect env _)
    · simp [connectEvents]
  · intro k hin hk
    have hg : getUserInputInt env.userInput
        ((scanCatalog env.foundEvents).length - 1) = none := by
      rw [hin, getUserInputInt, if_neg (by omega)]
    have hm2 : main env = (EXIT_FAILURE,
        preEvents env ++ [Event.printMenuHeader]
          ++ menuEvents (scanCatalog env.foundEvents)
          ++ [Event.errInvalidSelection]) := by
      rw [main_reach env h1 h2, mainFromSelection_none env _ hg]
    rw [hm2]
    refine ⟨rfl, by simp, ?_⟩
    intro hmem
    rcases List.mem_append.mp hmem with h | h
    · exact absurd h (pre_trace_not_mem env rfl)
    · simp at h
  · intro hin
    have hg : getUserInputInt env.userInput
        ((scanCatalog env.foundEvents).length - 1) = none := by
      rw [hin]
      rfl
    have hm2 : main env = (EXIT_FAILURE,
        preEvents env ++ [Event.printMenuHeader]
          ++ menuEvents (scanCatalog env.foundEvents)
          ++ [Event.errInvalidSelection]) := by
      rw [main_reach env h1 h2, mainFromSelection_none env _ hg]
    rw [hm2]
    refine ⟨rfl, by simp, ?_⟩
    intro hmem
    rcases List.mem_append.mp hmem with h | h
    · exact absurd h (pre_trace_not_mem env rfl)
    · simp at h

/-- Environment for the C4 amended-claim witness: one connectable device,
out-of-range operator input 5. -/
def c4bad : Env :=
  ⟨true, [⟨"SHB1000", "AA", true⟩], some 5, false, [], [], false, false, false⟩

/-- C4 amended-claim witness: out-of-range input 5 against a one-device catalog ends
with the invalid-selection diagnostic, a failure exit code, and no connect. -/
theorem c4_selection_full_catalog_witness :
    (main c4bad).1 = EXIT_FAILURE ∧ Event.errInvalidSelection ∈ (main c4bad).2 := by
  have h := (c4_selection_full_catalog c4bad rfl (by decide)).2.1 5 rfl (by decide)
  exact ⟨h.1, h.2.1⟩

/-- C6: the resolver enumerates services and characteristics in returned order and
returns the first pair whose characteristic UUID matches the lower-cased target
case-insensitively (recording the owning service UUID and the characteristic UUID);
targets differing only in letter case resolve identically; and when no match exists
in the whole tree the run disconnects exactly once and terminates with failure after
the not-found diagnostic. -/
theorem c6_characteristic_resolver :
    (∀ ss d, findCharacteristic ss d =
      (ss.flatMap (fun s => s.characteristics.map (fun c => (s.uuid, c.uuid)))).find?
        (fun pr => to_lower pr.2 == d)) ∧
    (∀ ss t1 t2, to_lower t1 = to_lower t2 →
      findCharacteristic ss (to_lower t1) = findCharacteristic ss (to_lower t2)) ∧
    (∀ env sel, env.adapterPresent = true →
      (scanCatalog env.foundEvents).isEmpty = false →
      getUserInputInt env.userInput ((scanCatalog env.foundEvents).length - 1) =
        some sel →
      env.connectThrows = false →
      findCharacteristic env.services desired_characteristic_uuid = none →
      (main env).1 = EXIT_FAILURE ∧
        (main env).2.count Event.disconnectCall = 1 ∧
        Event.errCharNotFound ∈ (main env).2) := by
  refine ⟨findCharacteristic_eq, ?_, ?_⟩
  · intro ss t1 t2 h
    rw [h]
  · intro env sel h1 h2 h3 h4 h5
    have hm : main env = (EXIT_FAILURE,
        preEvents env ++ [Event.printMenuHeader]
          ++ menuEvents (scanCatalog env.foundEvents)
          ++ (connectEvents ((scanCatalog env.foundEvents).getD sel default)
            ++ [Event.errCharNotFound] ++ listingEvents env.services
            ++ [Event.disconnectCall])) := by
      rw [main_reach env h1 h2, mainFromSelection_some env _ sel h3,
        mainFromConnect_notfound env _ h4 h5]
    rw [hm]
    have hp1 : (preEvents env).count Event.disconnectCall = 0 :=
      count_eq_zero_of_all (preEvents_print env) rfl
    have hp2 : (menuEvents (scanCatalog env.foundEvents)).count
        Event.disconnectCall = 0 :=
      count_eq_zero_of_all (menuEvents_print _) rfl
    have hp3 : (listingEvents env.services).count Event.disconnectCall = 0 :=
      count_eq_zero_of_all (listingEvents_shape _) rfl
    refine ⟨rfl, ?_, by simp⟩
    simp [List.count_append, List.count_cons, connectEvents, hp1, hp2, hp3]

/-- Environment for witnesses of the not-found path: one connectable target device,
selected at index 0, connect succeeds, empty service tree. -/
def c6wenv : Env :=
  ⟨true, [⟨"SHB1000", "AA", true⟩], some 0, false, [], [], false, false, false⟩

/-- C6 witness: on an empty service tree the resolver finds nothing and the run ends
with a failure exit code, exactly one disconnect, and the not-found diagnostic. -/
theorem c6_characteristic_resolver_witness :
    (main c6wenv).1 = EXIT_FAILURE ∧
    (main c6wenv).2.count Event.disconnectCall = 1 ∧
    Event.errCharNotFound ∈ (main c6wenv).2 :=
  c6_characteristic_resolver.2.2 c6wenv 0 rfl (by decide) (by decide) rfl rfl

/-- C7: on the normal teardown path an unsubscribe error is non-fatal — the warning
is logged, disconnect is still called right after it, completion is announced, and
the process exits with success; the exit code is success whether or not unsubscribe
errors. -/
theorem c7_unsubscribe_error_nonfatal (env : Env) (sel : Nat) (su cu : String)
    (used : Bool) (evs : List Event)
    (h1 : env.adapterPresent = true)
    (h2 : (scanCatalog env.foundEvents).isEmpty = false)
    (h3 : getUserInputInt env.userInput ((scanCatalog env.foundEvents).length - 1) =
      some sel)
    (h4 : env.connectThrows = false)
    (h5 : findCharacteristic env.services desired_characteristic_uuid = some (su, cu))
    (h6 : subscribeServices env.indicateThrows env.notifyThrows su cu false
      env.services2 = .completed used evs) :
    (main env).1 = EXIT_SUCCESS ∧
    (env.unsubscribeThrows = true →
      Event.warnUnsubscribeFailed ∈ (main env).2 ∧
      List.IsSuffix [Event.unsubscribeCall su cu, Event.warnUnsubscribeFailed,
        Event.disconnectCall, Event.printDisconnected] (main env).2) ∧
    (env.unsubscribeThrows = false →
      List.IsSuffix [Event.unsubscribeCall su cu, Event.disconnectCall,
        Event.printDisconnected] (main env).2) := by
  have har := mainAfterResolve_completed env su cu used evs h6
  have hm : main env = ((mainAfterResolve env su cu).1,
      preEvents env ++ [Event.printMenuHeader]
        ++ menuEvents (scanCatalog env.foundEvents)
        ++ (connectEvents ((scanCatalog env.foundEvents).getD sel default)
          ++ (mainAfterResolve env su cu).2)) := by
    rw [main_reach env h1 h2, mainFromSelection_some env _ sel h3,
      mainFromConnect_resolved env _ su cu h4 h5]
  refine ⟨?_, ?_, ?_⟩
  · rw [hm, har]
  · intro hu
    rw [hm, har, hu]
    constructor
    · simp
    · refine ⟨preEvents env ++ [Event.printMenuHeader]
        ++ menuEvents (scanCatalog env.foundEvents)
        ++ (connectEvents ((scanCatalog env.foundEvents).getD sel default)
          ++ (evs ++ [Event.printSubscriptionActive used])), ?_⟩
      simp [List.append_assoc]
  · intro hu
    rw [hm, har, hu]
    refine ⟨preEvents env ++ [Event.printMenuHeader]
      ++ menuEvents (scanCatalog env.foundEvents)
      ++ (connectEvents ((scanCatalog env.foundEvents).getD sel default)
        ++ (evs ++ [Event.printSubscriptionActive used])), ?_⟩
    simp [List.append_assoc]

/-- Environment for the C7 witness: normal run up to teardown, with unsubscribe
throwing. -/
def c7wenv : Env :=
  ⟨true, [⟨"SHB1000", "AA", true⟩], some 0, false, [wsvc], [wsvc], false, false, true⟩

/-- C7 witness: with a throwing unsubscribe the run still logs the warning and exits
with success. -/
theorem c7_unsubscribe_error_nonfatal_witness :
    (main c7wenv).1 = EXIT_SUCCESS ∧ Event.warnUnsubscribeFailed ∈ (main c7wenv).2 := by
  have h := c7_unsubscribe_error_nonfatal c7wenv 0 "svc1" BLE_CHARACTERISTIC_UUID true
    [Event.indicateCall "svc1" BLE_CHARACTERISTIC_UUID]
    rfl (by decide) (by decide) rfl (by decide) (by decide)
  exact ⟨h.1, (h.2.1 rfl).1⟩

/-- C9: when the subscribe-time re-check never encounters the resolved
service/characteristic pair, no indicate or notify call is made and no error is
reported, yet the session announces an active (notification-mode) subscription,
attempts unsubscribe and disconnect, and exits with success. -/
theorem c9_recheck_miss_silent_success (env : Env) (sel : Nat) (su cu : String)
    (h1 : env.adapterPresent = true)
    (h2 : (scanCatalog env.foundEvents).isEmpty = false)
    (h3 : getUserInputInt env.userInput ((scanCatalog env.foundEvents).length - 1) =
      some sel)
    (h4 : env.connectThrows = false)
    (h5 : findCharacteristic env.services desired_characteristic_uuid = some (su, cu))
    (h6 : ∀ s ∈ env.services2, s.uuid = su → ∀ c ∈ s.characteristics, c.uuid ≠ cu) :
    (main env).1 = EXIT_SUCCESS ∧
    (∀ a b, Event.indicateCall a b ∉ (main env).2) ∧
    (∀ a b, Event.notifyCall a b ∉ (main env).2) ∧
    Event.errSubscribeFailed ∉ (main env).2 ∧
    Event.errNoCapability ∉ (main env).2 ∧
    Event.printSubscriptionActive false ∈ (main env).2 ∧
    Event.unsubscribeCall su cu ∈ (main env).2 ∧
    Event.disconnectCall ∈ (main env).2 := by
  have h6s := subscribeServices_miss env.indicateThrows env.notifyThrows su cu false
    env.services2 h6
  have har := mainAfterResolve_completed env su cu false [] h6s
  have hm : main env = ((mainAfterResolve env su cu).1,
      preEvents env ++ [Event.printMenuHeader]
        ++ menuEvents (scanCatalog env.foundEvents)
        ++ (connectEvents ((scanCatalog env.foundEvents).getD sel default)
          ++ (mainAfterResolve env su cu).2)) := by
    rw [main_reach env h1 h2, mainFromSelection_some env _ sel h3,
      mainFromConnect_resolved env _ su cu h4 h5]
  refine ⟨by rw [hm, har], ?_, ?_, ?_, ?_, ?_, ?_, ?_⟩
  · intro a b hmem
    rw [hm, har] at hmem
    rcases List.mem_append.mp hmem with h | h
    · exact absurd h (pre_trace_not_mem env rfl)
    · rcases List.mem_append.mp h with h | h
      · simp [connectEvents] at h
      · cases hu : env.unsubscribeThrows
        all_goals rw [hu] at h
        all_goals simp at h
  · intro a b hmem
    rw [hm, har] at hmem
    rcases List.mem_append.mp hmem with h | h
    · exact absurd h (pre_trace_not_mem env rfl)
    · rcases List.mem_append.mp h with h | h
      · simp [connectEvents] at h
      · cases hu : env.unsubscribeThrows
        all_goals rw [hu] at h
        all_goals simp at h
  · intro hmem
    rw [hm, har] at hmem
    rcases List.mem_append.mp hmem with h | h
    · exact absurd h (pre_trace_not_mem env rfl)
    · rcases List.mem_append.mp h with h | h
      · simp [connectEvents] at h
      · cases hu : env.unsubscribeThrows
        all_goals rw [hu] at h
        all_goals simp at h
  · intro hmem
    rw [hm, har] at hmem
    rcases List.mem_append.mp hmem with h | h
    · exact absurd h (pre_trace_not_mem env rfl)
    · rcases List.mem_append.mp h with h | h
      · simp [connectEvents] at h
      · cases hu : env.unsubscribeThrows
        all_goals rw [hu] at h
        all_goals simp at h
  · rw [hm, har]
    cases hu : env.unsubscribeThrows
    all_goals simp
  · rw [hm, har]
    cases hu : env.unsubscribeThrows
    all_goals simp
  · rw [hm, har]
    cases hu : env.unsubscribeThrows
    all_goals simp

/-- Environment for the C9 witness: resolution succeeds against a one-service tree,
but the re-read tree is empty, so the re-check never meets the resolved pair. -/
def c9wenv : Env :=
  ⟨true, [⟨"SHB1000", "AA", true⟩], some 0, false, [wsvc], [], false, false, false⟩

/-- C9 witness: with an empty re-read tree the run announces a notification
subscription it never made, unsubscribes, and exits with success. -/
theorem c9_recheck_miss_silent_success_witness :
    (main c9wenv).1 = EXIT_SUCCESS ∧
    Event.printSubscriptionActive false ∈ (main c9wenv).2 ∧
    Event.unsubscribeCall "svc1" BLE_CHARACTERISTIC_UUID ∈ (main c9wenv).2 := by
  have h := c9_recheck_miss_silent_success c9wenv 0 "svc1" BLE_CHARACTERISTIC_UUID
    rfl (by decide) (by decide) rfl (by decide) (by decide)
  exact ⟨h.1, h.2.2.2.2.2.1, h.2.2.2.2.2.2.1⟩

/-- C1: for every failure after a successful connect (characteristic not found,
no indicate/notify capability, subscribe-call exception), disconnect is called
exactly once before the run terminates, and unsubscribe is never called on any of
these failure paths (in particular on none where the subscribe call did not
succeed). -/
theorem c1_post_connect_cleanup (env : Env)
    (hconn : Event.connectCall ∈ (main env).2)
    (hnt : env.connectThrows = false)
    (hfail : (main env).1 = EXIT_FAILURE) :
    (main env).2.count Event.disconnectCall = 1 ∧
    ∀ a b, Event.unsubscribeCall a b ∉ (main env).2 := by
  cases h1 : env.adapterPresent with
  | false =>
    exfalso
    simp [main, h1] at hconn
  | true =>
    cases h2 : (scanCatalog env.foundEvents).isEmpty with
    | true =>
      exfalso
      simp only [main, h1, h2, if_true] at hconn
      rcases List.mem_append.mp hconn with h | h
      · exact absurd (preEvents_print env _ h) (by decide)
      · simp at h
    | false =>
      rw [main_reach env h1 h2] at hconn hfail ⊢
      cases hg : getUserInputInt env.userInput
          ((scanCatalog env.foundEvents).length - 1) with
      | none =>
        exfalso
        rw [mainFromSelection_none env _ hg] at hconn
        rcases List.mem_append.mp hconn with h | h
        · exact absurd h (pre_trace_not_mem env rfl)
        · simp at h
      | some sel =>
        rw [mainFromSelection_some env _ sel hg] at hconn hfail ⊢
        cases h5 : findCharacteristic env.services desired_characteristic_uuid with
        | none =>
          rw [mainFromConnect_notfound env _ hnt h5] at hconn hfail ⊢
          have hp1 : (preEvents env).count Event.disconnectCall = 0 :=
            count_eq_zero_of_all (preEvents_print env) rfl
          have hp2 : (menuEvents (scanCatalog env.foundEvents)).count
              Event.disconnectCall = 0 :=
            count_eq_zero_of_all (menuEvents_print _) rfl
          have hp3 : (listingEvents env.services).count Event.disconnectCall = 0 :=
            count_eq_zero_of_all (listingEvents_shape _) rfl
          constructor
          · simp [List.count_append, List.count_cons, connectEvents, hp1, hp2, hp3]
          · intro a b hmem
            rcases List.mem_append.mp hmem with h | h
            · exact absurd h (pre_trace_not_mem env rfl)
            · simp only [List.mem_append] at h
              rcases h with ((h | h) | h) | h
              · simp [connectEvents] at h
              · simp at h
              · exact absurd (listingEvents_shape _ _ h) (by simp [isListingEvent])
              · simp at h
        | some r =>
          obtain ⟨su, cu⟩ := r
          rw [mainFromConnect_resolved env _ su cu hnt h5] at hconn hfail ⊢
          have hdisc := subscribeServices_disc env.indicateThrows env.notifyThrows
            su cu false env.services2
          have hshape := subscribeServices_events_shape env.indicateThrows
            env.notifyThrows su cu false env.services2
          cases hs : subscribeServices env.indicateThrows env.notifyThrows su cu
              false env.services2 with
          | completed used evs =>
            exfalso
            rw [mainAfterResolve_completed env su cu used evs hs] at hfail
            simp [EXIT_SUCCESS, EXIT_FAILURE] at hfail
          | thrown evs =>
            rw [hs] at hdisc hshape
            simp only [SubResult.events, SubResult.isNoCap] at hdisc hshape
            simp at hdisc
            rw [mainAfterResolve_thrown env su cu evs hs] at hconn hfail ⊢
            have hp1 : (preEvents env).count Event.disconnectCall = 0 :=
              count_eq_zero_of_all (preEvents_print env) rfl
            have hp2 : (menuEvents (scanCatalog env.foundEvents)).count
                Event.disconnectCall = 0 :=
              count_eq_zero_of_all (menuEvents_print _) rfl
            constructor
            · simp [List.count_append, List.count_cons, connectEvents, hp1, hp2,
                hdisc]
            · intro a b hmem
              rcases List.mem_append.mp hmem with h | h
              · exact absurd h (pre_trace_not_mem env rfl)
              · simp only [List.mem_append] at h
                rcases h with h | (h | h)
                · simp [connectEvents] at h
                · exact absurd (hshape _ h) (by simp [isSubEvent])
                · simp at h
          | noCapExit evs =>
            rw [hs] at hdisc hshape
            simp only [SubResult.events, SubResult.isNoCap] at hdisc hshape
            simp at hdisc
            rw [mainAfterResolve_noCap env su cu evs hs] at hconn hfail ⊢
            have hp1 : (preEvents env).count Event.disconnectCall = 0 :=
              count_eq_zero_of_all (preEvents_print env) rfl
            have hp2 : (menuEvents (scanCatalog env.foundEvents)).count
                Event.disconnectCall = 0 :=
              count_eq_zero_of_all (menuEvents_print _) rfl
            constructor
            · simp [List.count_append, List.count_cons, connectEvents, hp1, hp2,
                hdisc]
            · intro a b hmem
              rcases List.mem_append.mp hmem with h | h
              · exact absurd h (pre_trace_not_mem env rfl)
              · rcases List.mem_append.mp h with h | h
                · simp [connectEvents] at h
                · exact absurd (hshape _ h) (by simp [isSubEvent])

/-- C1 witness: the not-found failure path after a successful connect disconnects
exactly once. -/
theorem c1_post_connect_cleanup_witness :
    Event.connectCall ∈ (main c6wenv).2 ∧ (main c6wenv).1 = EXIT_FAILURE ∧
    (main c6wenv).2.count Event.disconnectCall = 1 := by
  refine ⟨by decide, by decide, ?_⟩
  exact (c1_post_connect_cleanup c6wenv (by decide) rfl (by decide)).1

end Simionic
